import Mathlib

/-!
Verification of the credential-resolution helper `secrets.py`.

The module resolves a (username, password) pair for an account from, in
priority order: the environment variables PI_USER/PI_PASS, the OS keyring
(keyed by service name and per-account derived keys), and an optional
interactive bootstrap prompt that persists and then re-reads the pair.

Shallow embedding conventions:
* The OS keyring (restricted to the one service name the module uses) is a
  `Keyring`: an association list from key to secret, plus the list of keys on
  which the backend's `delete_password` raises an error other than
  `PasswordDeleteError` (modelling backend failures such as a locked store).
* The process environment relevant to the module is an `Env` record holding
  the optional values of PI_USER and PI_PASS.
* Interactive input is a `Prompts` record holding what `input()` and
  `getpass.getpass()` would return; whether a prompt was actually shown is
  tracked explicitly where it is observable.
* Python truthiness of an `Optional[str]` (`if u and p:`) is: present and
  non-empty.
* A raised `MissingSecretError` is an `Except.error` carrying the message
  string; a propagated keyring error on delete is `Option.none`.
-/

/-- `ENV_USER` constant from secrets.py line 18. -/
def ENV_USER : String := "PI_USER"

/-- `ENV_PASS` constant from secrets.py line 19. -/
def ENV_PASS : String := "PI_PASS"

/-- `SERVICE_NAME = os.getenv("KEYRING_SERVICE", "pi-weblogger")` (line 12):
the service name is the value of KEYRING_SERVICE when that variable is set,
else the literal default. -/
def SERVICE_NAME (keyringServiceVar : Option String) : String :=
  keyringServiceVar.getD "pi-weblogger"

/-- `DEFAULT_ACCOUNT = os.getenv("KEYRING_ACCOUNT", "prod")` (line 15). -/
def DEFAULT_ACCOUNT (keyringAccountVar : Option String) : String :=
  keyringAccountVar.getD "prod"

/-- The part of the process environment the resolver reads:
the optional values of PI_USER and PI_PASS. -/
structure Env where
  piUser : Option String
  piPass : Option String

/-- Python truthiness of an `Optional[str]`: present and non-empty. -/
def truthy : Option String → Bool
  | none => false
  | some s => !s.isEmpty

/-- The `if u and p: return u, p / return None` pattern used at
secrets.py lines 29-31 and 73-74: returns the pair when both optional
strings are truthy, else `none`. -/
def pairIfTruthy : Option String → Option String → Option (String × String)
  | some u, some p => if !u.isEmpty && !p.isEmpty then some (u, p) else none
  | _, _ => none

/-- `_env_credentials` (secrets.py lines 26-31): the pair (PI_USER, PI_PASS)
when both are set and non-empty, else `None`. -/
def env_credentials (envv : Env) : Option (String × String) :=
  pairIfTruthy envv.piUser envv.piPass

/-- `_key_names` (secrets.py lines 34-39): the two stable keys under which an
account's username and password live in the keyring. -/
def key_names (account : String) : String × String :=
  (account ++ ":username", account ++ ":password")

/-- The OS keyring as seen through the fixed service name: an association
list from key to stored secret (at most the first binding per key is
observable), plus the keys on which the backend's delete raises an error
other than `PasswordDeleteError`. -/
structure Keyring where
  entries : List (String × String)
  delFailure : List String

/-- First binding for `key` in an association list, as
`keyring.get_password` reports it (present value or absent). -/
def lookupKey : List (String × String) → String → Option String
  | [], _ => none
  | e :: rest, key => if e.1 = key then some e.2 else lookupKey rest key

/-- Drop every binding for `key`. -/
def removeKey (l : List (String × String)) (key : String) :
    List (String × String) :=
  l.filter (fun e => e.1 != key)

/-- `keyring.get_password(SERVICE_NAME, key)`. -/
def kget (kr : Keyring) (key : String) : Option String :=
  lookupKey kr.entries key

/-- `keyring.set_password(SERVICE_NAME, key, value)`: overwrites any
previous binding for `key`. -/
def kset (kr : Keyring) (key value : String) : Keyring :=
  { kr with entries := (key, value) :: removeKey kr.entries key }

/-- Outcome of one `keyring.delete_password(SERVICE_NAME, key)` call:
success with the new store state, a `PasswordDeleteError` (key not found),
or some other keyring error. -/
inductive DelOutcome where
  | ok (kr : Keyring)
  | passwordDeleteError
  | otherError

/-- `keyring.delete_password(SERVICE_NAME, key)`: keys in `delFailure` fail
with a backend error other than `PasswordDeleteError`; otherwise a present
key is removed and an absent key raises `PasswordDeleteError`. -/
def kdel (kr : Keyring) (key : String) : DelOutcome :=
  if kr.delFailure.contains key then .otherError
  else if (kget kr key).isSome then
    .ok { kr with entries := removeKey kr.entries key }
  else .passwordDeleteError

/-- What the two interactive prompts would return:
`input("PI Username: ")` (before `.strip()`) and
`getpass.getpass("PI Password: ")`. -/
structure Prompts where
  userInput : String
  passInput : String

/-- Python `v or fallback` for `v : Optional[str]`: the fallback is used
when `v` is `None` or the empty string. -/
def orFalsy (v : Option String) (fallback : String) : String :=
  match v with
  | some s => if s.isEmpty then fallback else s
  | none => fallback

/-- Python `str.strip()`: drop leading and trailing whitespace. -/
def pyStrip (s : String) : String :=
  String.mk (((s.data.dropWhile Char.isWhitespace).reverse.dropWhile
    Char.isWhitespace).reverse)

/-- `set_basic_auth` (secrets.py lines 42-53): resolve each missing (falsy)
argument from its prompt — `input(...).strip()` for the username, a masked
`getpass` (no strip) for the password — then store both under the derived
key pair. -/
def set_basic_auth (kr : Keyring) (account : String)
    (username password : Option String) (pr : Prompts) : Keyring :=
  let keys := key_names account
  let u := orFalsy username (pyStrip pr.userInput)
  let p := orFalsy password pr.passInput
  kset (kset kr keys.1 u) keys.2 p

/-- The `MissingSecretError` message built at secrets.py lines 84-89. -/
def missingSecretMessage (service account : String) : String :=
  "Missing credentials.\n" ++
  "- Set env vars " ++ ENV_USER ++ "/" ++ ENV_PASS ++ ", OR\n" ++
  "- Run: " ++
    ("python -c \"import secrets; secrets.set_basic_auth(\x27" ++
      account ++ "\x27)\"") ++ "\n" ++
  "(service=\x27" ++ service ++ "\x27, account=\x27" ++ account ++ "\x27)"

/-- Result of `get_basic_auth`: the returned pair or the raised
`MissingSecretError` message, the keyring state afterwards, and whether the
interactive prompt was invoked. -/
structure GetResult where
  result : Except String (String × String)
  kr : Keyring
  prompted : Bool

/-- `get_basic_auth` (secrets.py lines 56-89): environment pair first, else
the stored pair, else (only when `interactive_bootstrap`) prompt-and-store
then re-read from the keyring, else raise `MissingSecretError`. -/
def get_basic_auth (envv : Env) (service account : String)
    (interactive_bootstrap : Bool) (pr : Prompts) (kr : Keyring) : GetResult :=
  match env_credentials envv with
  | some cred => ⟨.ok cred, kr, false⟩
  | none =>
    let keys := key_names account
    match pairIfTruthy (kget kr keys.1) (kget kr keys.2) with
    | some cred => ⟨.ok cred, kr, false⟩
    | none =>
      if interactive_bootstrap then
        let kr2 := set_basic_auth kr account none none pr
        match pairIfTruthy (kget kr2 keys.1) (kget kr2 keys.2) with
        | some cred => ⟨.ok cred, kr2, true⟩
        | none => ⟨.error (missingSecretMessage service account), kr2, true⟩
      else
        ⟨.error (missingSecretMessage service account), kr, false⟩

/-- One `try: keyring.delete_password(...) except PasswordDeleteError: pass`
block of `delete_basic_auth`: a `PasswordDeleteError` is swallowed leaving
the store as it was, any other keyring error propagates (`none`). -/
def tryDeleteSwallow (kr : Keyring) (key : String) : Option Keyring :=
  match kdel kr key with
  | .ok kr2 => some kr2
  | .passwordDeleteError => some kr
  | .otherError => none

/-- `delete_basic_auth` (secrets.py lines 109-123): delete the username key
then the password key, each in its own swallow-not-found block; `none`
models a propagated keyring error. -/
def delete_basic_auth (kr : Keyring) (account : String) : Option Keyring :=
  let keys := key_names account
  match tryDeleteSwallow kr keys.1 with
  | none => none
  | some kr1 => tryDeleteSwallow kr1 keys.2

/-- `pat` occurs as a contiguous substring of `s`. -/
def containsSubstr (s pat : String) : Prop :=
  ∃ a b, s = a ++ pat ++ b

/-! ### Helper lemmas about the store model -/

theorem lookupKey_removeKey_ne (l : List (String × String)) (k k' : String)
    (h : k' ≠ k) : lookupKey (removeKey l k) k' = lookupKey l k' := by
  induction l with
  | nil => rfl
  | cons e rest ih =>
    simp only [removeKey, List.filter_cons] at *
    by_cases he : e.1 = k
    · simp [he, lookupKey, ih, Ne.symm h]
    · simp only [bne_iff_ne, ne_eq, he, not_false_eq_true, if_pos, lookupKey, ih]

theorem lookupKey_removeKey_self (l : List (String × String)) (k : String) :
    lookupKey (removeKey l k) k = none := by
  induction l with
  | nil => rfl
  | cons e rest ih =>
    simp only [removeKey, List.filter_cons] at *
    by_cases he : e.1 = k
    · simp [he, ih]
    · simp [he, lookupKey, ih]

theorem kget_kset_self (kr : Keyring) (k v : String) :
    kget (kset kr k v) k = some v := by
  simp [kget, kset, lookupKey]

theorem kget_kset_ne (kr : Keyring) (k v k' : String) (h : k' ≠ k) :
    kget (kset kr k v) k' = kget kr k' := by
  simp [kget, kset, lookupKey, Ne.symm h, lookupKey_removeKey_ne _ _ _ h]

/-- A successful swallow-block leaves every other key's binding unchanged
and never touches the failure configuration. -/
theorem tryDeleteSwallow_frame (kr kr2 : Keyring) (k k' : String)
    (h : k' ≠ k) (hs : tryDeleteSwallow kr k = some kr2) :
    kget kr2 k' = kget kr k' ∧ kr2.delFailure = kr.delFailure := by
  by_cases hc : k ∈ kr.delFailure
  · simp [tryDeleteSwallow, kdel, hc] at hs
  · by_cases hg : (kget kr k).isSome
    · simp [tryDeleteSwallow, kdel, hc, hg] at hs
      subst hs
      exact ⟨lookupKey_removeKey_ne _ _ _ h, rfl⟩
    · simp [tryDeleteSwallow, kdel, hc, hg] at hs
      subst hs
      exact ⟨rfl, rfl⟩

/-- A successful swallow-block removes the targeted key (it was either
deleted or already absent). -/
theorem tryDeleteSwallow_gone (kr kr2 : Keyring) (k : String)
    (hs : tryDeleteSwallow kr k = some kr2) : kget kr2 k = none := by
  by_cases hc : k ∈ kr.delFailure
  · simp [tryDeleteSwallow, kdel, hc] at hs
  · by_cases hg : (kget kr k).isSome
    · simp [tryDeleteSwallow, kdel, hc, hg] at hs
      subst hs
      exact lookupKey_removeKey_self _ _
    · simp [tryDeleteSwallow, kdel, hc, hg] at hs
      subst hs
      exact Option.not_isSome_iff_eq_none.mp hg

/-! ### String-key lemmas -/

theorem str_append_right_cancel {a b s : String} (h : a ++ s = b ++ s) :
    a = b := by
  apply String.ext
  have hd : a.data ++ s.data = b.data ++ s.data := by
    simpa using congrArg String.data h
  exact (List.append_inj' hd rfl).1

theorem str_append_suffix_ne {a b : String} (s t : String)
    (hlen : s.data.length = t.data.length) (hst : s ≠ t) :
    a ++ s ≠ b ++ t := by
  intro h
  have hd : a.data ++ s.data = b.data ++ t.data := by
    simpa using congrArg String.data h
  exact hst (String.ext (List.append_inj' hd hlen).2)

theorem userKey_ne_passKey (A B : String) :
    (key_names A).1 ≠ (key_names B).2 :=
  str_append_suffix_ne ":username" ":password" (by decide) (by decide)

theorem userKey_inj {A B : String} (h : (key_names A).1 = (key_names B).1) :
    A = B :=
  str_append_right_cancel h

theorem passKey_inj {A B : String} (h : (key_names A).2 = (key_names B).2) :
    A = B :=
  str_append_right_cancel h

/-- With `interactive_bootstrap = false`, the outcome of `get_basic_auth`
depends on the keyring only through the two derived keys of the account. -/
theorem get_result_congr (envv : Env) (service account : String)
    (pr : Prompts) (kr1 kr2 : Keyring)
    (h1 : kget kr1 (key_names account).1 = kget kr2 (key_names account).1)
    (h2 : kget kr1 (key_names account).2 = kget kr2 (key_names account).2) :
    (get_basic_auth envv service account false pr kr1).result
      = (get_basic_auth envv service account false pr kr2).result := by
  cases he : env_credentials envv with
  | some cred => simp [get_basic_auth, he]
  | none =>
    simp only [get_basic_auth, he, h1, h2]
    cases pairIfTruthy (kget kr2 (key_names account).1)
        (kget kr2 (key_names account).2) <;> rfl

/-- A substring of `s` is a substring of `s ++ t`. -/
theorem containsSubstr_appL {s pat : String} (t : String)
    (h : containsSubstr s pat) : containsSubstr (s ++ t) pat := by
  obtain ⟨a, b, rfl⟩ := h
  exact ⟨a, b ++ t, by simp [String.append_assoc]⟩

/-- A substring of `t` is a substring of `s ++ t`. -/
theorem containsSubstr_appR {t pat : String} (s : String)
    (h : containsSubstr t pat) : containsSubstr (s ++ t) pat := by
  obtain ⟨a, b, rfl⟩ := h
  exact ⟨s ++ a, b, by simp [String.append_assoc]⟩

theorem containsSubstr_self (pat : String) : containsSubstr pat pat :=
  ⟨"", "", by simp⟩

/-! ### The claims -/

/-- C5: `_key_names` is a pure function; for distinct accounts the two
derived key pairs share no key string, and for a single account the
username key and the password key are distinct. -/
theorem key_names_no_collision (A B : String) (hAB : A ≠ B) :
    (key_names A).1 ≠ (key_names B).1 ∧ (key_names A).1 ≠ (key_names B).2 ∧
    (key_names A).2 ≠ (key_names B).1 ∧ (key_names A).2 ≠ (key_names B).2 ∧
    (key_names A).1 ≠ (key_names A).2 :=
  ⟨fun h => hAB (userKey_inj h),
   userKey_ne_passKey A B,
   fun h => (userKey_ne_passKey B A) h.symm,
   fun h => hAB (passKey_inj h),
   userKey_ne_passKey A A⟩

theorem key_names_no_collision_witness :
    ("prod" : String) ≠ "test" ∧
    (((key_names "prod").1 ≠ (key_names "test").1 ∧
      (key_names "prod").1 ≠ (key_names "test").2 ∧
      (key_names "prod").2 ≠ (key_names "test").1 ∧
      (key_names "prod").2 ≠ (key_names "test").2 ∧
      (key_names "prod").1 ≠ (key_names "prod").2)) :=
  ⟨by decide, key_names_no_collision "prod" "test" (by decide)⟩

/-- C1: when PI_USER and PI_PASS are both set and non-empty,
`get_basic_auth` returns exactly that pair for every account, keyring
content and bootstrap flag, leaving the keyring unchanged and never
prompting. -/
theorem env_override_wins (envv : Env) (kr : Keyring)
    (service account : String) (b : Bool) (pr : Prompts) (u p : String)
    (hu : envv.piUser = some u) (hp : envv.piPass = some p)
    (hun : u ≠ "") (hpn : p ≠ "") :
    get_basic_auth envv service account b pr kr
      = ⟨Except.ok (u, p), kr, false⟩ := by
  have henv : env_credentials envv = some (u, p) := by
    simp [env_credentials, hu, hp, pairIfTruthy, String.isEmpty_iff, hun, hpn]
  simp [get_basic_auth, henv]

theorem env_override_wins_witness :
    get_basic_auth ⟨some "alice", some "pw"⟩ "pi-weblogger" "prod" true
        ⟨"x", "y"⟩
        ⟨[("prod:username", "bob"), ("prod:password", "hunter2")], []⟩
      = ⟨Except.ok ("alice", "pw"),
         ⟨[("prod:username", "bob"), ("prod:password", "hunter2")], []⟩,
         false⟩ :=
  env_override_wins ⟨some "alice", some "pw"⟩
    ⟨[("prod:username", "bob"), ("prod:password", "hunter2")], []⟩
    "pi-weblogger" "prod" true ⟨"x", "y"⟩ "alice" "pw" rfl rfl
    (by decide) (by decide)

/-- C2: with no full environment override, storing a non-empty pair for an
account and then resolving that account with `bootstrap = false` returns
exactly the stored pair, whatever was in the keyring before (the later
store overwrites any earlier pair). -/
theorem store_then_resolve_round_trip (envv : Env) (kr : Keyring)
    (service A u p : String) (pr pr2 : Prompts)
    (henv : env_credentials envv = none) (hu : u ≠ "") (hp : p ≠ "") :
    (get_basic_auth envv service A false pr2
        (set_basic_auth kr A (some u) (some p) pr)).result
      = Except.ok (u, p) := by
  have hkk : (key_names A).1 ≠ (key_names A).2 := userKey_ne_passKey A A
  have hs : set_basic_auth kr A (some u) (some p) pr
      = kset (kset kr (key_names A).1 u) (key_names A).2 p := by
    simp [set_basic_auth, orFalsy, String.isEmpty_iff, hu, hp]
  have h1 : kget (kset (kset kr (key_names A).1 u) (key_names A).2 p)
      (key_names A).1 = some u := by
    rw [kget_kset_ne _ _ _ _ hkk, kget_kset_self]
  have h2 : kget (kset (kset kr (key_names A).1 u) (key_names A).2 p)
      (key_names A).2 = some p :=
    kget_kset_self _ _ _
  have hu2 : u.isEmpty = false := by
    rw [← Bool.not_eq_true]
    intro hh
    exact hu ((String.isEmpty_iff _).mp hh)
  have hp2 : p.isEmpty = false := by
    rw [← Bool.not_eq_true]
    intro hh
    exact hp ((String.isEmpty_iff _).mp hh)
  simp [get_basic_auth, henv, hs, h1, h2, pairIfTruthy, hu2, hp2]

theorem store_then_resolve_round_trip_witness :
    (get_basic_auth ⟨none, none⟩ "pi-weblogger" "prod" false ⟨"x", "y"⟩
        (set_basic_auth
          (set_basic_auth ⟨[], []⟩ "prod" (some "alice") (some "s3cr3t")
            ⟨"x", "y"⟩)
          "prod" (some "bob") (some "hunter2") ⟨"x", "y"⟩)).result
      = Except.ok ("bob", "hunter2") :=
  store_then_resolve_round_trip ⟨none, none⟩
    (set_basic_auth ⟨[], []⟩ "prod" (some "alice") (some "s3cr3t")
      ⟨"x", "y"⟩)
    "pi-weblogger" "prod" "bob" "hunter2" ⟨"x", "y"⟩ ⟨"x", "y"⟩
    rfl (by decide) (by decide)

/-- C3: with no environment override, no complete stored pair and
`bootstrap = false`, `get_basic_auth` raises `MissingSecretError`, and the
message names PI_USER and PI_PASS, a literal bootstrap invocation, the
service name and the account name. -/
theorem resolve_missing_credentials (envv : Env) (kr : Keyring)
    (service account : String) (pr : Prompts)
    (henv : env_credentials envv = none)
    (hstore : pairIfTruthy (kget kr (key_names account).1)
        (kget kr (key_names account).2) = none) :
    (get_basic_auth envv service account false pr kr).result
        = Except.error (missingSecretMessage service account)
    ∧ containsSubstr (missingSecretMessage service account) "PI_USER"
    ∧ containsSubstr (missingSecretMessage service account) "PI_PASS"
    ∧ containsSubstr (missingSecretMessage service account)
        ("python -c \"import secrets; secrets.set_basic_auth(\x27" ++
          account ++ "\x27)\"")
    ∧ containsSubstr (missingSecretMessage service account) service
    ∧ containsSubstr (missingSecretMessage service account) account := by
  refine ⟨?_, ?_, ?_, ?_, ?_, ?_⟩
  · simp [get_basic_auth, henv, hstore]
  · exact containsSubstr_appL _ (containsSubstr_appL _ (containsSubstr_appL _
      (containsSubstr_appL _ (containsSubstr_appL _ (containsSubstr_appL _
      (containsSubstr_appL _ (containsSubstr_appL _ (containsSubstr_appL _
      (containsSubstr_appL _ (containsSubstr_appL _ (containsSubstr_appR _
        (containsSubstr_self "PI_USER"))))))))))))
  · exact containsSubstr_appL _ (containsSubstr_appL _ (containsSubstr_appL _
      (containsSubstr_appL _ (containsSubstr_appL _ (containsSubstr_appL _
      (containsSubstr_appL _ (containsSubstr_appL _ (containsSubstr_appL _
      (containsSubstr_appR _ (containsSubstr_self "PI_PASS"))))))))))
  · exact containsSubstr_appL _ (containsSubstr_appL _ (containsSubstr_appL _
      (containsSubstr_appL _ (containsSubstr_appL _ (containsSubstr_appL _
      (containsSubstr_appR _ (containsSubstr_self _)))))))
  · exact containsSubstr_appL _ (containsSubstr_appL _ (containsSubstr_appL _
      (containsSubstr_appR _ (containsSubstr_self service))))
  · exact containsSubstr_appL _ (containsSubstr_appR _
      (containsSubstr_self account))

theorem resolve_missing_credentials_witness :
    (get_basic_auth ⟨none, none⟩ "pi-weblogger" "prod" false ⟨"x", "y"⟩
        ⟨[], []⟩).result
      = Except.error (missingSecretMessage "pi-weblogger" "prod") :=
  (resolve_missing_credentials ⟨none, none⟩ ⟨[], []⟩ "pi-weblogger" "prod"
    ⟨"x", "y"⟩ rfl rfl).1

/-- C6: when exactly one of PI_USER/PI_PASS is set to a non-empty string,
`get_basic_auth` behaves exactly as with an empty environment: the partial
override is ignored and resolution falls through to the keyring. -/
theorem partial_env_ignored (envv : Env) (kr : Keyring)
    (service account : String) (b : Bool) (pr : Prompts)
    (h : truthy envv.piUser ≠ truthy envv.piPass) :
    get_basic_auth envv service account b pr kr
      = get_basic_auth ⟨none, none⟩ service account b pr kr := by
  have henv : env_credentials envv = none := by
    obtain ⟨u, p⟩ := envv
    cases u with
    | none => rfl
    | some su =>
      cases p with
      | none => rfl
      | some sp =>
        have hcond : (!su.isEmpty && !sp.isEmpty) = false := by
          cases hsu : su.isEmpty <;> cases hsp : sp.isEmpty <;>
            simp_all [truthy]
        simp [env_credentials, pairIfTruthy, hcond]
  have h0 : env_credentials ⟨none, none⟩ = none := rfl
  simp [get_basic_auth, henv, h0]

theorem partial_env_ignored_witness :
    get_basic_auth ⟨some "alice", none⟩ "pi-weblogger" "prod" false
        ⟨"x", "y"⟩ ⟨[("prod:username", "bob"), ("prod:password", "pw")], []⟩
      = get_basic_auth ⟨none, none⟩ "pi-weblogger" "prod" false ⟨"x", "y"⟩
        ⟨[("prod:username", "bob"), ("prod:password", "pw")], []⟩ :=
  partial_env_ignored ⟨some "alice", none⟩
    ⟨[("prod:username", "bob"), ("prod:password", "pw")], []⟩
    "pi-weblogger" "prod" false ⟨"x", "y"⟩ (by decide)

/-- C8: with `interactive_bootstrap = false`, `get_basic_auth` never
prompts: its outcome does not depend on the prompt inputs, the keyring is
left unchanged, and it either returns a pair or raises
`MissingSecretError`. -/
theorem bootstrap_opt_in (envv : Env) (kr : Keyring)
    (service account : String) (pr pr2 : Prompts) :
    (get_basic_auth envv service account false pr kr).prompted = false
    ∧ get_basic_auth envv service account false pr kr
        = get_basic_auth envv service account false pr2 kr
    ∧ (get_basic_auth envv service account false pr kr).kr = kr
    ∧ ((∃ cred, (get_basic_auth envv service account false pr kr).result
          = Except.ok cred)
        ∨ (get_basic_auth envv service account false pr kr).result
          = Except.error (missingSecretMessage service account)) := by
  cases h1 : env_credentials envv with
  | some cred => simp [get_basic_auth, h1]
  | none =>
    cases h2 : pairIfTruthy (kget kr (key_names account).1)
        (kget kr (key_names account).2) with
    | some cred => simp [get_basic_auth, h1, h2]
    | none => simp [get_basic_auth, h1, h2]

/-- A swallow-block propagates an error exactly when the backend fails on
that key with something other than `PasswordDeleteError`. -/
theorem tryDeleteSwallow_none_iff (kr : Keyring) (k : String) :
    tryDeleteSwallow kr k = none ↔ k ∈ kr.delFailure := by
  by_cases hc : k ∈ kr.delFailure
  · simp [tryDeleteSwallow, kdel, hc]
  · by_cases hg : (kget kr k).isSome <;>
      simp [tryDeleteSwallow, kdel, hc, hg]

/-- A successful swallow-block does not change which keys fail. -/
theorem tryDeleteSwallow_delFailure (kr kr2 : Keyring) (k : String)
    (hs : tryDeleteSwallow kr k = some kr2) :
    kr2.delFailure = kr.delFailure := by
  by_cases hc : k ∈ kr.delFailure
  · simp [tryDeleteSwallow, kdel, hc] at hs
  · by_cases hg : (kget kr k).isSome
    · simp [tryDeleteSwallow, kdel, hc, hg] at hs
      subst hs
      rfl
    · simp [tryDeleteSwallow, kdel, hc, hg] at hs
      subst hs
      rfl

/-- C4: `delete_basic_auth` propagates an error exactly when the backend
reports, on at least one of the two derived keys, a failure other than
"key not found"; on success both keys are absent afterwards (whichever
existed was deleted, a missing one was silently skipped). -/
theorem delete_raises_iff_other_failure (kr : Keyring) (account : String) :
    (delete_basic_auth kr account = none ↔
      (key_names account).1 ∈ kr.delFailure ∨
      (key_names account).2 ∈ kr.delFailure)
    ∧ ∀ kr2, delete_basic_auth kr account = some kr2 →
        kget kr2 (key_names account).1 = none ∧
        kget kr2 (key_names account).2 = none := by
  constructor
  · by_cases hc1 : (key_names account).1 ∈ kr.delFailure
    · have h1 : tryDeleteSwallow kr (key_names account).1 = none :=
        (tryDeleteSwallow_none_iff _ _).mpr hc1
      simp [delete_basic_auth, h1, hc1]
    · obtain ⟨kr1, h1⟩ : ∃ kr1,
          tryDeleteSwallow kr (key_names account).1 = some kr1 := by
        cases hh : tryDeleteSwallow kr (key_names account).1 with
        | none => exact absurd ((tryDeleteSwallow_none_iff _ _).mp hh) hc1
        | some kr1 => exact ⟨kr1, rfl⟩
      have hdf : kr1.delFailure = kr.delFailure :=
        tryDeleteSwallow_delFailure _ _ _ h1
      by_cases hc2 : (key_names account).2 ∈ kr.delFailure
      · have h2 : tryDeleteSwallow kr1 (key_names account).2 = none :=
          (tryDeleteSwallow_none_iff _ _).mpr (by rw [hdf]; exact hc2)
        simp [delete_basic_auth, h1, h2, hc1, hc2]
      · obtain ⟨kr2, h2⟩ : ∃ kr2,
            tryDeleteSwallow kr1 (key_names account).2 = some kr2 := by
          cases hh : tryDeleteSwallow kr1 (key_names account).2 with
          | none =>
            exact absurd (hdf ▸ (tryDeleteSwallow_none_iff _ _).mp hh) hc2
          | some kr2 => exact ⟨kr2, rfl⟩
        simp [delete_basic_auth, h1, h2, hc1, hc2]
  · intro kr2 hdel
    cases hh1 : tryDeleteSwallow kr (key_names account).1 with
    | none => simp [delete_basic_auth, hh1] at hdel
    | some kr1 =>
      simp only [delete_basic_auth, hh1] at hdel
      have hkk : (key_names account).1 ≠ (key_names account).2 :=
        userKey_ne_passKey account account
      have g1 : kget kr2 (key_names account).1
          = kget kr1 (key_names account).1 :=
        (tryDeleteSwallow_frame _ _ _ _ hkk hdel).1
      have g1b : kget kr1 (key_names account).1 = none :=
        tryDeleteSwallow_gone _ _ _ hh1
      exact ⟨g1.trans g1b, tryDeleteSwallow_gone _ _ _ hdel⟩

theorem delete_raises_iff_other_failure_witness :
    kget ⟨[], []⟩ (key_names "prod").1 = none ∧
    kget ⟨[], []⟩ (key_names "prod").2 = none :=
  (delete_raises_iff_other_failure
    ⟨[("prod:username", "alice")], []⟩ "prod").2 ⟨[], []⟩ rfl

/-- C7: from an empty store with no environment override, bootstrapping
with prompt inputs ("alice", "s3cr3t") returns that pair, the pair is
persisted under the account's keys (the returned values agree with what the
store now holds, as they are re-read from it), and a later non-bootstrap
resolve returns the same pair. -/
theorem bootstrap_persists (envv : Env) (kr : Keyring)
    (service account : String) (pr2 : Prompts)
    (henv : env_credentials envv = none) (hkr : kr.entries = []) :
    (get_basic_auth envv service account true ⟨"alice", "s3cr3t"⟩ kr).result
        = Except.ok ("alice", "s3cr3t")
    ∧ (get_basic_auth envv service account true ⟨"alice", "s3cr3t"⟩
        kr).prompted = true
    ∧ kget (get_basic_auth envv service account true ⟨"alice", "s3cr3t"⟩
        kr).kr (key_names account).1 = some "alice"
    ∧ kget (get_basic_auth envv service account true ⟨"alice", "s3cr3t"⟩
        kr).kr (key_names account).2 = some "s3cr3t"
    ∧ (get_basic_auth envv service account false pr2
        (get_basic_auth envv service account true ⟨"alice", "s3cr3t"⟩
          kr).kr).result = Except.ok ("alice", "s3cr3t") := by
  have hg1 : kget kr (key_names account).1 = none := by
    simp [kget, hkr, lookupKey]
  have hg2 : kget kr (key_names account).2 = none := by
    simp [kget, hkr, lookupKey]
  have hkk : (key_names account).1 ≠ (key_names account).2 :=
    userKey_ne_passKey account account
  have hstrip : pyStrip "alice" = "alice" := by decide
  have hset : set_basic_auth kr account none none ⟨"alice", "s3cr3t"⟩
      = kset (kset kr (key_names account).1 "alice")
          (key_names account).2 "s3cr3t" := by
    simp [set_basic_auth, orFalsy, hstrip]
  have hga : kget (kset (kset kr (key_names account).1 "alice")
      (key_names account).2 "s3cr3t") (key_names account).1
      = some "alice" := by
    rw [kget_kset_ne _ _ _ _ hkk, kget_kset_self]
  have hgb : kget (kset (kset kr (key_names account).1 "alice")
      (key_names account).2 "s3cr3t") (key_names account).2
      = some "s3cr3t" :=
    kget_kset_self _ _ _
  have ha : ("alice" : String).isEmpty = false := by decide
  have hb : ("s3cr3t" : String).isEmpty = false := by decide
  have hres : get_basic_auth envv service account true ⟨"alice", "s3cr3t"⟩ kr
      = ⟨Except.ok ("alice", "s3cr3t"),
         kset (kset kr (key_names account).1 "alice")
           (key_names account).2 "s3cr3t", true⟩ := by
    simp [get_basic_auth, henv, hg1, hg2, pairIfTruthy, hset, hga, hgb,
      ha, hb]
  rw [hres]
  refine ⟨rfl, rfl, hga, hgb, ?_⟩
  simp [get_basic_auth, henv, hga, hgb, pairIfTruthy, ha, hb]

theorem bootstrap_persists_witness :
    (get_basic_auth ⟨none, none⟩ "pi-weblogger" "prod" true
        ⟨"alice", "s3cr3t"⟩ ⟨[], []⟩).result
      = Except.ok ("alice", "s3cr3t") :=
  (bootstrap_persists ⟨none, none⟩ ⟨[], []⟩ "pi-weblogger" "prod"
    ⟨"x", "y"⟩ rfl rfl).1

/-- C9: `set_basic_auth` treats an explicitly supplied empty-string
username or password like an omitted one: the prompt value is used and
persisted for that field, never the empty string argument. -/
theorem empty_arg_falls_back_to_prompt (kr : Keyring) (account : String)
    (pr : Prompts) (un pw : Option String) :
    set_basic_auth kr account (some "") pw pr
        = set_basic_auth kr account none pw pr
    ∧ set_basic_auth kr account un (some "") pr
        = set_basic_auth kr account un none pr
    ∧ kget (set_basic_auth kr account (some "") pw pr)
        (key_names account).1 = some (pyStrip pr.userInput)
    ∧ kget (set_basic_auth kr account un (some "") pr)
        (key_names account).2 = some pr.passInput := by
  have hkk : (key_names account).1 ≠ (key_names account).2 :=
    userKey_ne_passKey account account
  have he : ("" : String).isEmpty = true := rfl
  refine ⟨by simp [set_basic_auth, orFalsy, he],
    by simp [set_basic_auth, orFalsy, he], ?_, ?_⟩
  · have h : set_basic_auth kr account (some "") pw pr
        = kset (kset kr (key_names account).1 (pyStrip pr.userInput))
            (key_names account).2 (orFalsy pw pr.passInput) := by
      simp [set_basic_auth, orFalsy, he]
    rw [h, kget_kset_ne _ _ _ _ hkk, kget_kset_self]
  · have h : set_basic_auth kr account un (some "") pr
        = kset (kset kr (key_names account).1
              (orFalsy un (pyStrip pr.userInput)))
            (key_names account).2 pr.passInput := by
      simp [set_basic_auth, orFalsy, he]
    rw [h, kget_kset_self]

/-- C10: storing for account A, or successfully deleting account A, leaves
both stored entries of a different account B unchanged, so a subsequent
non-bootstrap resolve of B (with no environment override) returns the same
result as before. -/
theorem other_account_frame (envv : Env) (kr : Keyring)
    (service A B : String) (un pw : Option String) (pr pr2 : Prompts)
    (hAB : A ≠ B) (henv : env_credentials envv = none) :
    kget (set_basic_auth kr A un pw pr) (key_names B).1
        = kget kr (key_names B).1
    ∧ kget (set_basic_auth kr A un pw pr) (key_names B).2
        = kget kr (key_names B).2
    ∧ (get_basic_auth envv service B false pr2
        (set_basic_auth kr A un pw pr)).result
        = (get_basic_auth envv service B false pr2 kr).result
    ∧ ∀ kr2, delete_basic_auth kr A = some kr2 →
        kget kr2 (key_names B).1 = kget kr (key_names B).1
        ∧ kget kr2 (key_names B).2 = kget kr (key_names B).2
        ∧ (get_basic_auth envv service B false pr2 kr2).result
            = (get_basic_auth envv service B false pr2 kr).result := by
  have hBuAu : (key_names B).1 ≠ (key_names A).1 :=
    fun h => hAB (userKey_inj h).symm
  have hBuAp : (key_names B).1 ≠ (key_names A).2 := userKey_ne_passKey B A
  have hBpAu : (key_names B).2 ≠ (key_names A).1 :=
    fun h => userKey_ne_passKey A B h.symm
  have hBpAp : (key_names B).2 ≠ (key_names A).2 :=
    fun h => hAB (passKey_inj h).symm
  have c1 : kget (set_basic_auth kr A un pw pr) (key_names B).1
      = kget kr (key_names B).1 := by
    simp only [set_basic_auth]
    rw [kget_kset_ne _ _ _ _ hBuAp, kget_kset_ne _ _ _ _ hBuAu]
  have c2 : kget (set_basic_auth kr A un pw pr) (key_names B).2
      = kget kr (key_names B).2 := by
    simp only [set_basic_auth]
    rw [kget_kset_ne _ _ _ _ hBpAp, kget_kset_ne _ _ _ _ hBpAu]
  refine ⟨c1, c2, get_result_congr _ _ _ _ _ _ c1 c2, ?_⟩
  intro kr2 hdel
  cases hh1 : tryDeleteSwallow kr (key_names A).1 with
  | none => simp [delete_basic_auth, hh1] at hdel
  | some kr1 =>
    simp only [delete_basic_auth, hh1] at hdel
    have d1 : kget kr2 (key_names B).1 = kget kr (key_names B).1 :=
      ((tryDeleteSwallow_frame _ _ _ _ hBuAp hdel).1).trans
        (tryDeleteSwallow_frame _ _ _ _ hBuAu hh1).1
    have d2 : kget kr2 (key_names B).2 = kget kr (key_names B).2 :=
      ((tryDeleteSwallow_frame _ _ _ _ hBpAp hdel).1).trans
        (tryDeleteSwallow_frame _ _ _ _ hBpAu hh1).1
    exact ⟨d1, d2, get_result_congr _ _ _ _ _ _ d1 d2⟩

theorem other_account_frame_witness :
    (get_basic_auth ⟨none, none⟩ "pi-weblogger" "test" false ⟨"x", "y"⟩
        (set_basic_auth
          ⟨[("test:username", "tu"), ("test:password", "tp")], []⟩
          "prod" (some "u") (some "p") ⟨"x", "y"⟩)).result
      = (get_basic_auth ⟨none, none⟩ "pi-weblogger" "test" false ⟨"x", "y"⟩
          ⟨[("test:username", "tu"), ("test:password", "tp")], []⟩).result :=
  (other_account_frame ⟨none, none⟩
    ⟨[("test:username", "tu"), ("test:password", "tp")], []⟩
    "pi-weblogger" "prod" "test" (some "u") (some "p") ⟨"x", "y"⟩
    ⟨"x", "y"⟩ (by decide) rfl).2.2.1
